import Mathlib

/-!
Shallow embedding of the browser dashboard client `src/script.js`:
the data model (locations → machines → jobs), the push-message handler
(`socket.onmessage` / `handleNewJob`), the render pipeline
(`renderDashboard` / `createOrUpdateMachineCard`), machine actions
(`machineAction`), the rename overlay (`renamedMachines`), and the ETA
countdown (`formatTime` / `setupETACountdown`).

Machine quantities and durations are modelled as `Int`.  Progress
percentages are modelled in tenths of a percent (an `Int`, 500 = 50.0%),
so that the JS `toFixed(1)` step in `createOrUpdateMachineCard` is exact
on every representable value and no floating point enters the model.
-/

/-- Does the char list `hay` start with `needle`?  Helper for the JS
`String.includes` substring test used by the search filter. -/
def listStarts : List Char → List Char → Bool
  | [], _ => true
  | _ :: _, [] => false
  | c :: cs, d :: ds => c == d && listStarts cs ds

/-- Does any suffix of `hay` start with `needle`? -/
def containsAux (needle : List Char) : List Char → Bool
  | [] => listStarts needle []
  | c :: cs => listStarts needle (c :: cs) || containsAux needle cs

/-- JS `hay.includes(needle)` on strings. -/
def strContains (hay needle : String) : Bool :=
  containsAux needle.data hay.data

/-- JS `s.toLowerCase()` (ASCII, which covers the data this client sees). -/
def strLower (s : String) : String :=
  String.mk (s.data.map Char.toLower)

/-- JS `s.toUpperCase()` (ASCII). -/
def strUpper (s : String) : String :=
  String.mk (s.data.map Char.toUpper)

/-- Drop leading whitespace characters. -/
def dropLead : List Char → List Char
  | [] => []
  | c :: cs => if c.isWhitespace then dropLead cs else c :: cs

/-- JS `s.trim()`. -/
def strTrim (s : String) : String :=
  String.mk (dropLead (dropLead s.data.reverse).reverse)

/-- JS `s.toString().padStart(2, "0")` for the seconds field of
`formatTime` (script.js line 314). -/
def pad2 (k : Int) : String :=
  let s := toString k
  if s.length < 2 then "0" ++ s else s

/-- JS `formatTime(sec)` from script.js lines 310-315: a falsy (`!sec`, i.e.
zero) or negative input renders "0:00"; otherwise minutes, a colon and
two-digit seconds. -/
def formatTime (sec : Int) : String :=
  if sec = 0 ∨ sec < 0 then "0:00"
  else toString (sec / 60) ++ ":" ++ pad2 (sec % 60)

/-- Reference definition following the spec text for `formatTime`: every
`d < 0` clamps to "0:00" and every `d ≥ 0` renders `floor(d/60)`, a colon,
and `floor(d mod 60)` zero-padded to two digits. -/
def formatTimeSpec (d : Int) : String :=
  if d < 0 then "0:00" else toString (d / 60) ++ ":" ++ pad2 (d % 60)

/-- Current job of a machine (`machine.job`).  `progress_percent` is in
tenths of a percent. -/
structure Job where
  work_order : String
  size : String
  completed_qty : Int
  total_qty : Int
  remaining_time : Option Int
  progress_percent : Option Int
  deriving Repr, DecidableEq

/-- Queued job (`machine.next_job`), the shape written by `handleNewJob`
(script.js lines 431-437). -/
structure NextJob where
  work_order : String
  pipe_size : String
  produced_qty : Int
  total_qty : Int
  remaining_time : Option Int
  deriving Repr, DecidableEq

structure Machine where
  id : String
  name : String
  status : String
  job : Option Job
  next_job : Option NextJob
  deriving Repr, DecidableEq

structure Location where
  name : String
  machines : List Machine
  deriving Repr, DecidableEq

/-- State `dashboardCache`: the value last assigned to it.  After
`dashboardCache = data` in `socket.onmessage`, the `locations` key may be
absent, hence the `Option`. -/
structure Cache where
  locations : Option (List Location)
  deriving Repr, DecidableEq

/-- The client-side rename overlay `renamedMachines`, a map from machine
id to the renamed display name. -/
abbrev Overlay := String → Option String

/-- JS `renamedMachines[machine.id] || machine.name` (script.js line 215);
JS `||` treats the empty string as falsy. -/
def displayName (overlay : Overlay) (m : Machine) : String :=
  match overlay m.id with
  | some s => if s = "" then m.name else s
  | none => m.name

/-- Assignment `renamedMachines[machineId] = newName.trim()` on a successful rename
(script.js line 270); the caller passes the already-trimmed name. -/
def setRenameOverlay (overlay : Overlay) (machineId newName : String) : Overlay :=
  fun i => if i = machineId then some newName else overlay i

/-- Payload of a push `new_job` event (script.js line 416). -/
structure JobEvent where
  machine_id : String
  work_order : String
  qty : Int
  pipe_size : String
  eta : Option Int
  machine_name : String
  deriving Repr, DecidableEq

/-- The alert text emitted at the end of `handleNewJob` (script.js line
450): the renamed name when one is set (and nonempty), else the name
carried by the event. -/
def newJobAlertMsg (overlay : Overlay) (e : JobEvent) : String :=
  let nm := match overlay e.machine_id with
    | some s => if s = "" then e.machine_name else s
    | none => e.machine_name
  "✅ New Job Assigned to " ++ nm ++ ": " ++ e.work_order

/-- The per-machine routing of `handleNewJob` (script.js lines 421-438):
no current job or idle status means the event becomes the current job
(completed quantity and progress reset to 0); otherwise it becomes the
queued `next_job` and the current job is untouched. -/
def routeNewJob (e : JobEvent) (m : Machine) : Machine :=
  let asCurrent : Job := ⟨e.work_order, e.pipe_size, 0, e.qty, e.eta, some 0⟩
  let asQueued : NextJob := ⟨e.work_order, e.pipe_size, 0, e.qty, e.eta⟩
  if m.job.isNone || m.status == "idle" then { m with job := some asCurrent }
  else { m with next_job := some asQueued }

/-- Patch the first machine whose id matches the event, mirroring
`loc.machines.find(m => m.id === machine_id)` followed by in-place
mutation; `none` when no machine in the list matches. -/
def patchMachines (e : JobEvent) : List Machine → Option (List Machine)
  | [] => none
  | m :: ms =>
    if m.id == e.machine_id then some (routeNewJob e m :: ms)
    else
      match patchMachines e ms with
      | some ms2 => some (m :: ms2)
      | none => none

/-- Walk the locations in order, patching the first one that contains the
event's machine (the `for..of` loop with `break`, script.js 418-448). -/
def patchLocs (e : JobEvent) : List Location → Option (List Location)
  | [] => none
  | loc :: rest =>
    match patchMachines e loc.machines with
    | some ms2 => some ({ loc with machines := ms2 } :: rest)
    | none =>
      match patchLocs e rest with
      | some rest2 => some (loc :: rest2)
      | none => none

/-- First machine with the given id across the location list, in the same
scan order as the `handleNewJob` loop. -/
def findMachine (id : String) : List Location → Option Machine
  | [] => none
  | loc :: rest =>
    match loc.machines.find? (fun m => m.id == id) with
    | some m => some m
    | none => findMachine id rest

/-- Lookup through the cache respecting the optional `locations` key. -/
def cacheFind (id : String) (c : Cache) : Option Machine :=
  match c.locations with
  | some locs => findMachine id locs
  | none => none

/-- Outcome of one `handleNewJob` call: the cache afterwards, the id of
the machine whose existing card got re-rendered (if any), and the alerts
created. -/
structure HNJResult where
  cache : Cache
  rerenderedId : Option String
  alerts : List String
  deriving Repr, DecidableEq

/-- Handler `handleNewJob` (script.js lines 415-451).  `dom id` says whether the
DOM node `machine-id` currently exists.  Iterating
`dashboardCache.locations` when the cache has no `locations` key throws a
TypeError, modelled as `Except.error`.  The trailing `createAlert` runs
unconditionally, found machine or not. -/
def handleNewJob (e : JobEvent) (overlay : Overlay) (dom : String → Bool)
    (cache : Cache) : Except String HNJResult :=
  match cache.locations with
  | none => Except.error "TypeError: dashboardCache.locations is not iterable"
  | some locs =>
    match patchLocs e locs with
    | some locs2 =>
      Except.ok
        ⟨⟨some locs2⟩,
          if dom e.machine_id then some e.machine_id else none,
          [newJobAlertMsg overlay e]⟩
    | none => Except.ok ⟨cache, none, [newJobAlertMsg overlay e]⟩

/-- A push-channel message: any subset of these keys may be present
(`work_orders` is irrelevant to the claims and elided). -/
structure WSMessage where
  locations : Option (List Location)
  new_job : Option JobEvent
  deriving Repr, DecidableEq

/-- Outcome of one `socket.onmessage` call. -/
structure WSResult where
  cache : Cache
  alerts : List String
  errorCaught : Bool
  rerenderedId : Option String
  deriving Repr, DecidableEq

/-- Handler `socket.onmessage` (script.js lines 101-120), restricted to the state
effects the claims are about.  `dashboardCache = data` runs first and
unconditionally, before any key is inspected; a `new_job` key is then
handled against that freshly assigned cache; any thrown error is caught
and surfaces the "WebSocket data error" alert.  `handleAlerts(data)`
iterates `data.locations`, so a message without that key also throws.
Rendering of `data.locations`, the metrics modal, threshold alerts and
the log refresh are elided; the `suppressNextWSRender` flag is never set
to true anywhere in the source, so its branch is dead. -/
def onmessage (msg : WSMessage) (overlay : Overlay) (dom : String → Bool)
    (_old : Cache) : WSResult :=
  let cache : Cache := ⟨msg.locations⟩
  match msg.new_job with
  | some e =>
    match handleNewJob e overlay dom cache with
    | Except.ok r => ⟨r.cache, r.alerts, false, r.rerenderedId⟩
    | Except.error _ => ⟨cache, ["WebSocket data error"], true, none⟩
  | none =>
    match msg.locations with
    | some _ => ⟨cache, [], false, none⟩
    | none => ⟨cache, ["WebSocket data error"], true, none⟩

/-- How JS prints the number `Math.min(Number(p.toFixed(1)), 100)` for a
nonnegative value of `n` tenths: one decimal digit unless the value is a
whole number, in which case the trailing ".0" is dropped. -/
def renderTenthsNat (n : Nat) : String :=
  if n % 10 == 0 then toString (n / 10)
  else toString (n / 10) ++ "." ++ toString (n % 10)

/-- Signed version of `renderTenthsNat`. -/
def renderTenths (k : Int) : String :=
  if k < 0 then "-" ++ renderTenthsNat (-k).toNat else renderTenthsNat k.toNat

/-- JS `machine.job?.progress_percent != null ? Math.min(p.toFixed(1), 100) : 0`
(script.js line 218), in tenths: `toFixed(1)` is the identity on tenths,
and `Math.min` coerces the resulting string back to a number. -/
def percentVal (p : Option Int) : Int :=
  match p with
  | some k => min k 1000
  | none => 0

/-- The progress-bar color chain of script.js line 230: at least 90%
gives red, at least 75% gives orange, anything lower gives green.  The
argument is the already clamped/rounded value, in tenths. -/
def progressColor (v : Int) : String :=
  if v ≥ 900 then "red" else if v ≥ 750 then "orange" else "green"

/-- Rendering claimed by the spec for the progress percent: always one
decimal of precision (value in tenths). -/
def oneDecimalText (k : Int) : String :=
  toString (k / 10) ++ "." ++ toString (k % 10)

/-- The job block of a machine card. -/
structure JobView where
  workOrder : String
  sizeText : String
  producedText : String
  remainingText : String
  percentText : String
  barColor : String
  deriving Repr, DecidableEq

/-- A rendered machine card, projected to the fields the spec talks
about; the role-gated buttons are elided. -/
structure Card where
  machineId : String
  nameText : String
  statusText : String
  jobView : Option JobView
  deriving Repr, DecidableEq

/-- The card content built by `createOrUpdateMachineCard` (script.js
lines 213-251). -/
def mkCard (overlay : Overlay) (m : Machine) : Card :=
  let pv := percentVal (m.job.bind (fun j => j.progress_percent))
  let remText := match m.job.bind (fun j => j.remaining_time) with
    | some t => formatTime t
    | none => "N/A"
  { machineId := m.id
    nameText := displayName overlay m
    statusText := strUpper m.status
    jobView := m.job.map (fun j =>
      { workOrder := j.work_order
        sizeText := j.size
        producedText := toString j.completed_qty ++ "/" ++ toString j.total_qty
        remainingText := remText
        percentText := renderTenths pv
        barColor := progressColor pv }) }

/-- The active render filters as read from the DOM controls; `search` is
the raw input text (`renderDashboard` trims and lowercases it). -/
structure Filters where
  loc : String
  status : String
  search : String
  deriving Repr, DecidableEq

/-- The logged-in user fields the renderer consults. -/
structure User where
  location : String
  role : String
  deriving Repr, DecidableEq

/-- JS `(m.job?.work_order || "")` used by the search filter (script.js
line 195). -/
def jobWO (m : Machine) : String :=
  match m.job with
  | some j => j.work_order
  | none => ""

/-- Per-location machine filtering of `renderDashboard` (script.js lines
193-195): the status filter, then the free-text search over the snapshot
`m.name` and the current job's work order. -/
def shownMachines (f : Filters) (loc : Location) : List Machine :=
  let ms := if f.status != "all"
    then loc.machines.filter (fun m => m.status == f.status)
    else loc.machines
  let q := strLower (strTrim f.search)
  if q != "" then
    ms.filter (fun m =>
      strContains (strLower m.name) q || strContains (strLower (jobWO m)) q)
  else ms

/-- Location scoping and filtering of `renderDashboard` (script.js lines
185-197): user scope, then the location filter, then per-location machine
filtering. -/
def visibleMachines (user : User) (f : Filters) (locs : List Location) :
    List (String × List Machine) :=
  let vis := if user.location == "all" then locs
    else locs.filter (fun l => l.name == user.location)
  let vis2 := if f.loc != "all" then vis.filter (fun l => l.name == f.loc) else vis
  vis2.map (fun loc => (loc.name, shownMachines f loc))

/-- One full render pass: every visible machine becomes a card via
`createOrUpdateMachineCard` (script.js lines 192-208). -/
def renderDashboard (user : User) (overlay : Overlay) (f : Filters)
    (locs : List Location) : List (String × List Card) :=
  (visibleMachines user f locs).map (fun p => (p.1, p.2.map (mkCard overlay)))

/-- Backend response to a `POST /machine/{action}` request. -/
structure ActionResp where
  ok : Bool
  machine : Option Machine
  deriving Repr, DecidableEq

/-- Outcome of one `machineAction` call. -/
structure MAResult where
  cache : Cache
  errAlert : Option String
  rerendered : Option Machine
  deriving Repr, DecidableEq

/-- Handler `machineAction` (script.js lines 280-305).  `resp = none` models the
catch branch (network or parse failure).  The handler never writes
`dashboardCache`; on success it only re-renders the card from the
returned record, and only when that card already exists in the DOM. -/
def machineAction (action : String) (resp : Option ActionResp)
    (cardExists : Bool) (cache : Cache) : MAResult :=
  match resp with
  | none => ⟨cache, some ("❌ " ++ action ++ " failed"), none⟩
  | some r =>
    if r.ok = false then ⟨cache, some ("❌ " ++ action ++ " failed"), none⟩
    else
      match r.machine, cardExists with
      | some m, true => ⟨cache, none, some m⟩
      | _, _ => ⟨cache, none, none⟩

/-- State of one per-machine countdown interval.  `el` is the truthiness
of the element reference captured by the closure at setup time. -/
structure CountdownState where
  el : Bool
  t : Int
  display : String
  active : Bool
  deriving Repr, DecidableEq

/-- Setup `setupETACountdown` (script.js lines 317-329) after the element
lookup succeeded: the closure captures the element (`el := true`), seeds
the counter, and immediately shows `formatTime(sec)`. -/
def countdownSetup (sec : Int) : CountdownState :=
  ⟨true, sec, formatTime sec, true⟩

/-- One interval tick.  `elNow` says whether the display element still
exists in the document at tick time; the source closure instead tests the
constant `el` reference captured at setup (`if(!el)`), so the body reads
`st.el` and never `elNow`.  Then: show `formatTime(t)`, post-decrement
`t`, and clear the interval once `t` has gone below 0. -/
def etaTick (_elNow : Bool) (st : CountdownState) : CountdownState :=
  if st.active = false then st
  else if st.el = false then { st with active := false }
  else
    let d := formatTime st.t
    let t2 := st.t - 1
    { st with display := d, t := t2, active := decide (0 ≤ t2) }

/-- Run `n` ticks with the element present throughout. -/
def tickN : Nat → CountdownState → CountdownState
  | 0, st => st
  | n + 1, st => etaTick true (tickN n st)

/-! ## Helper lemmas -/

theorem formatTime_nonpos (d : Int) (h : d ≤ 0) : formatTime d = "0:00" := by
  unfold formatTime
  rcases lt_or_eq_of_le h with h2 | h2
  · rw [if_pos (Or.inr h2)]
  · rw [if_pos (Or.inl h2)]

theorem routeNewJob_id (e : JobEvent) (m : Machine) :
    (routeNewJob e m).id = m.id := by
  unfold routeNewJob
  split <;> rfl

/-! ## C8 -/

/-- C8: `formatTime` equals the reference definition: every `d < 0`
renders "0:00" and every `d ≥ 0` renders `floor(d/60)`, a colon, and
`floor(d mod 60)` zero-padded to two digits; in particular 125 yields
"2:05". -/
theorem formatTime_matches_reference :
    (∀ d : Int, formatTime d = formatTimeSpec d) ∧ formatTime 125 = "2:05" := by
  constructor
  · intro d
    unfold formatTime formatTimeSpec
    by_cases h0 : d < 0
    · rw [if_pos (Or.inr h0), if_pos h0]
    · by_cases hz : d = 0
      · subst hz
        rw [if_pos (Or.inl rfl), if_neg h0]
        decide
      · rw [if_neg (fun hc => hc.elim hz h0), if_neg h0]
  · decide

/-! ## C1 -/

/-- C1 (code bug, evaluated at the failing input): a push message carrying
only `new_job` is not applied as a patch to the existing Dashboard State.
`dashboardCache = data` first replaces the cache with the partial message,
so every previously known location and machine disappears, and
`handleNewJob` then throws while iterating the missing `locations` key
(caught, surfacing the "WebSocket data error" alert). -/
theorem newJobOnly_clobbers_state :
    onmessage ⟨none, some ⟨"m1", "WO-5", 4, "2in", some 30, "A1"⟩⟩
        (fun _ => none) (fun _ => true)
        ⟨some [⟨"Modan", [⟨"m1", "A1", "idle", none, none⟩]⟩]⟩ =
      ⟨⟨none⟩, ["WebSocket data error"], true, none⟩ ∧
    cacheFind "m1" ⟨some [⟨"Modan", [⟨"m1", "A1", "idle", none, none⟩]⟩]⟩ =
      some ⟨"m1", "A1", "idle", none, none⟩ ∧
    cacheFind "m1" (⟨none⟩ : Cache) = none :=
  ⟨rfl, rfl, rfl⟩

/-! ## C7 -/

/-- C7 (code bug, evaluated at the failing input): a countdown started
with the display element present does not cancel on a tick at which the
element no longer exists: the `if(!el)` guard tests the element reference
captured at setup (never null once setup succeeded), so the timer stays
active, still writes the display, and keeps counting down. -/
theorem countdown_no_cancel_on_removed_element :
    (etaTick false (countdownSetup 10)).active = true ∧
    (etaTick false (countdownSetup 10)).display = formatTime 10 ∧
    (etaTick false (countdownSetup 10)).t = 9 ∧
    (countdownSetup 10).el = true :=
  ⟨rfl, rfl, rfl, rfl⟩

/-! ## Patch lemmas for the new-job handler -/

theorem patchMachines_of_find (e : JobEvent) (ms : List Machine) (m : Machine)
    (h : ms.find? (fun x => x.id == e.machine_id) = some m) :
    ∃ ms2, patchMachines e ms = some ms2 ∧
      ms2.find? (fun x => x.id == e.machine_id) = some (routeNewJob e m) := by
  induction ms with
  | nil => simp [List.find?] at h
  | cons m0 rest ih =>
    cases hid : m0.id == e.machine_id with
    | true =>
      simp only [List.find?, hid] at h
      have hm : m0 = m := by injection h
      subst hm
      refine ⟨routeNewJob e m0 :: rest, ?_, ?_⟩
      · simp only [patchMachines]
        rw [if_pos hid]
      · have hid2 : ((routeNewJob e m0).id == e.machine_id) = true := by
          rw [routeNewJob_id]
          exact hid
        simp only [List.find?, hid2]
    | false =>
      simp only [List.find?, hid] at h
      obtain ⟨ms2, hp, hf⟩ := ih h
      refine ⟨m0 :: ms2, ?_, ?_⟩
      · simp only [patchMachines]
        rw [if_neg (by simp [hid]), hp]
      · simp only [List.find?, hid]
        exact hf

theorem patchMachines_of_find_none (e : JobEvent) (ms : List Machine)
    (h : ms.find? (fun x => x.id == e.machine_id) = none) :
    patchMachines e ms = none := by
  induction ms with
  | nil => rfl
  | cons m0 rest ih =>
    cases hid : m0.id == e.machine_id with
    | true =>
      simp only [List.find?, hid] at h
      exact absurd h (by simp)
    | false =>
      simp only [List.find?, hid] at h
      simp only [patchMachines]
      rw [if_neg (by simp [hid]), ih h]

theorem patchLocs_of_findMachine (e : JobEvent) (locs : List Location) (m : Machine)
    (h : findMachine e.machine_id locs = some m) :
    ∃ locs2, patchLocs e locs = some locs2 ∧
      findMachine e.machine_id locs2 = some (routeNewJob e m) := by
  induction locs with
  | nil => simp [findMachine] at h
  | cons loc rest ih =>
    unfold findMachine at h
    cases hf : loc.machines.find? (fun x => x.id == e.machine_id) with
    | some m0 =>
      rw [hf] at h
      have hm : m0 = m := by injection h
      subst hm
      obtain ⟨ms2, hp, hfind⟩ := patchMachines_of_find e loc.machines m0 hf
      refine ⟨{ loc with machines := ms2 } :: rest, ?_, ?_⟩
      · simp only [patchLocs]
        rw [hp]
      · unfold findMachine
        rw [hfind]
    | none =>
      rw [hf] at h
      obtain ⟨rest2, hp, hfind⟩ := ih h
      refine ⟨loc :: rest2, ?_, ?_⟩
      · simp only [patchLocs]
        rw [patchMachines_of_find_none e loc.machines hf, hp]
      · unfold findMachine
        rw [hf]
        exact hfind

theorem patchLocs_of_findMachine_none (e : JobEvent) (locs : List Location)
    (h : findMachine e.machine_id locs = none) :
    patchLocs e locs = none := by
  induction locs with
  | nil => rfl
  | cons loc rest ih =>
    unfold findMachine at h
    cases hf : loc.machines.find? (fun x => x.id == e.machine_id) with
    | some m0 =>
      rw [hf] at h
      exact absurd h (by simp)
    | none =>
      rw [hf] at h
      simp only [patchLocs]
      rw [patchMachines_of_find_none e loc.machines hf, ih h]

/-! ## C2 -/

/-- C2: for a new-job event whose machine id matches a machine in the
snapshot, the handler succeeds and the matched machine becomes
`routeNewJob e m`: with no current job or idle status the event becomes
the current job with completed quantity 0 and progress percent 0 (and
nothing else on the machine changes); otherwise the event becomes the
queued `next_job` and the current job is left unchanged. -/
theorem newJob_routing (e : JobEvent) (overlay : Overlay) (dom : String → Bool)
    (locs : List Location) (m : Machine)
    (h : findMachine e.machine_id locs = some m) :
    ∃ r, handleNewJob e overlay dom ⟨some locs⟩ = Except.ok r ∧
      cacheFind e.machine_id r.cache = some (routeNewJob e m) ∧
      ((m.job = none ∨ m.status = "idle") →
        routeNewJob e m =
          { m with job := some ⟨e.work_order, e.pipe_size, 0, e.qty, e.eta, some 0⟩ }) ∧
      (m.job ≠ none → m.status ≠ "idle" →
        routeNewJob e m =
          { m with next_job := some ⟨e.work_order, e.pipe_size, 0, e.qty, e.eta⟩ }) := by
  obtain ⟨locs2, hp, hfind⟩ := patchLocs_of_findMachine e locs m h
  refine ⟨⟨⟨some locs2⟩,
      if dom e.machine_id then some e.machine_id else none,
      [newJobAlertMsg overlay e]⟩, ?_, ?_, ?_, ?_⟩
  · simp only [handleNewJob]
    rw [hp]
  · simpa [cacheFind] using hfind
  · intro hc
    have hcond : (m.job.isNone || m.status == "idle") = true := by
      rcases hc with hc | hc
      · simp [hc]
      · simp [hc]
    simp [routeNewJob, hcond]
  · intro hj hs
    have hcond : (m.job.isNone || m.status == "idle") = false := by
      rcases hm : m.job with _ | j
      · exact absurd hm hj
      · simp [hm, beq_eq_false_iff_ne, hs]
    simp [routeNewJob, hcond]

/-- Witness for C2 at a concrete idle machine. -/
theorem newJob_routing_witness :
    findMachine "m1" [⟨"Modan", [⟨"m1", "A1", "idle", none, none⟩]⟩] =
      some ⟨"m1", "A1", "idle", none, none⟩ ∧
    ∃ r, handleNewJob ⟨"m1", "WO-1", 5, "2in", some 60, "A1"⟩ (fun _ => none)
        (fun _ => false) ⟨some [⟨"Modan", [⟨"m1", "A1", "idle", none, none⟩]⟩]⟩ =
        Except.ok r ∧
      cacheFind "m1" r.cache =
        some (routeNewJob ⟨"m1", "WO-1", 5, "2in", some 60, "A1"⟩
          ⟨"m1", "A1", "idle", none, none⟩) :=
  ⟨rfl, by
    obtain ⟨r, h1, h2, h3, h4⟩ :=
      newJob_routing ⟨"m1", "WO-1", 5, "2in", some 60, "A1"⟩ (fun _ => none)
        (fun _ => false) [⟨"Modan", [⟨"m1", "A1", "idle", none, none⟩]⟩]
        ⟨"m1", "A1", "idle", none, none⟩ rfl
    exact ⟨r, h1, h2⟩⟩

/-! ## C4 -/

/-- C4 counterexample: a new-job event whose machine id matches no
machine still produces a user-visible alert — `createAlert` runs
unconditionally after the loop, announcing "✅ New Job Assigned to …"
for a machine that was never found. -/
theorem unknownMachine_alert_cex :
    handleNewJob ⟨"zz", "WO-77", 3, "1in", none, "Extruder 9"⟩ (fun _ => none)
        (fun _ => false)
        ⟨some [⟨"Modan", [⟨"m1", "A1", "running", none, none⟩]⟩]⟩ =
      Except.ok ⟨⟨some [⟨"Modan", [⟨"m1", "A1", "running", none, none⟩]⟩]⟩, none,
        ["✅ New Job Assigned to Extruder 9: WO-77"]⟩ ∧
    ["✅ New Job Assigned to Extruder 9: WO-77"] ≠ ([] : List String) :=
  ⟨rfl, by simp⟩

/-- C4 (amended): a new-job event whose machine id matches no machine in
the snapshot leaves the Dashboard State unchanged, touches no DOM node,
and is dropped without throwing — but the unconditional success alert
("✅ New Job Assigned to …") is still emitted, and nothing is logged. -/
theorem unknownMachine_dropped (e : JobEvent) (overlay : Overlay)
    (dom : String → Bool) (locs : List Location)
    (h : findMachine e.machine_id locs = none) :
    handleNewJob e overlay dom ⟨some locs⟩ =
      Except.ok ⟨⟨some locs⟩, none, [newJobAlertMsg overlay e]⟩ := by
  simp only [handleNewJob]
  rw [patchLocs_of_findMachine_none e locs h]

/-- Witness for C4 at a concrete unknown machine id. -/
theorem unknownMachine_dropped_witness :
    findMachine "zz" [⟨"Modan", [⟨"m1", "A1", "running", none, none⟩]⟩] = none ∧
    handleNewJob ⟨"zz", "WO-9", 3, "1in", none, "B7"⟩ (fun _ => none) (fun _ => true)
        ⟨some [⟨"Modan", [⟨"m1", "A1", "running", none, none⟩]⟩]⟩ =
      Except.ok ⟨⟨some [⟨"Modan", [⟨"m1", "A1", "running", none, none⟩]⟩]⟩, none,
        [newJobAlertMsg (fun _ => none) ⟨"zz", "WO-9", 3, "1in", none, "B7"⟩]⟩ :=
  ⟨rfl, unknownMachine_dropped ⟨"zz", "WO-9", 3, "1in", none, "B7"⟩ (fun _ => none)
    (fun _ => true) [⟨"Modan", [⟨"m1", "A1", "running", none, none⟩]⟩] rfl⟩

/-! ## C3 -/

/-- C3: once machine id `M` carries rename overlay name `N` (nonempty),
every card rendered for `M` in any subsequent full render — over any
snapshot, any filters, any user — shows `N`, independent of the name the
snapshot carries; the render pass never writes the overlay. -/
theorem rename_survives (overlay : Overlay) (M N : String) (hN : N ≠ "")
    (user : User) (f : Filters) (locs : List Location)
    (lname : String) (cards : List Card) (c : Card)
    (hmem : (lname, cards) ∈ renderDashboard user (setRenameOverlay overlay M N) f locs)
    (hc : c ∈ cards) (hid : c.machineId = M) :
    c.nameText = N := by
  unfold renderDashboard at hmem
  obtain ⟨p, hp, heq⟩ := List.mem_map.mp hmem
  have hcards : cards = p.2.map (mkCard (setRenameOverlay overlay M N)) :=
    (congrArg Prod.snd heq).symm
  rw [hcards] at hc
  obtain ⟨m, hm, hcm⟩ := List.mem_map.mp hc
  subst hcm
  have hmid : m.id = M := hid
  show displayName (setRenameOverlay overlay M N) m = N
  simp [displayName, setRenameOverlay, hmid, hN]

/-- Witness for C3: machine `m1` renamed to "Line A" renders as "Line A"
even though the snapshot says "SnapshotName". -/
theorem rename_survives_witness :
    ("Line A" : String) ≠ "" ∧
    (mkCard (setRenameOverlay (fun _ => none) "m1" "Line A")
        ⟨"m1", "SnapshotName", "idle", none, none⟩).nameText = "Line A" :=
  ⟨by decide,
    rename_survives (fun _ => none) "m1" "Line A" (by decide)
      ⟨"all", "operator"⟩ ⟨"all", "all", ""⟩
      [⟨"Modan", [⟨"m1", "SnapshotName", "idle", none, none⟩]⟩] "Modan"
      [mkCard (setRenameOverlay (fun _ => none) "m1" "Line A")
        ⟨"m1", "SnapshotName", "idle", none, none⟩]
      (mkCard (setRenameOverlay (fun _ => none) "m1" "Line A")
        ⟨"m1", "SnapshotName", "idle", none, none⟩)
      (by exact List.mem_singleton.mpr rfl) (List.Mem.head _) rfl⟩

/-! ## C5 -/

/-- C5 counterexample: a successful start action (ok response carrying
the updated running record) leaves the canonical Dashboard State
untouched — the state still holds the old idle record, which differs from
the returned one, so the record is not "replaced in place". -/
theorem action_state_not_replaced_cex :
    machineAction "start" (some ⟨true, some ⟨"m1", "A1", "running", none, none⟩⟩)
        true ⟨some [⟨"Modan", [⟨"m1", "A1", "idle", none, none⟩]⟩]⟩ =
      ⟨⟨some [⟨"Modan", [⟨"m1", "A1", "idle", none, none⟩]⟩]⟩, none,
        some ⟨"m1", "A1", "running", none, none⟩⟩ ∧
    cacheFind "m1" ⟨some [⟨"Modan", [⟨"m1", "A1", "idle", none, none⟩]⟩]⟩ =
      some ⟨"m1", "A1", "idle", none, none⟩ ∧
    (⟨"m1", "A1", "idle", none, none⟩ : Machine) ≠
      ⟨"m1", "A1", "running", none, none⟩ :=
  ⟨rfl, rfl, by decide⟩

/-- C5 (amended): `machineAction` never modifies the canonical Dashboard
State (there is no `applyActionResult`; the state catches up on the next
snapshot).  On an ok response carrying a machine record, and with the
card present, only that card is re-rendered from the returned record; on
`ok=false` or network error, the "❌ action failed" alert is surfaced,
nothing is re-rendered, and the state is unchanged. -/
theorem action_scoped_update (action : String) (resp : Option ActionResp)
    (cardExists : Bool) (cache : Cache) :
    (machineAction action resp cardExists cache).cache = cache ∧
    (∀ r m, resp = some r → r.ok = true → r.machine = some m → cardExists = true →
      (machineAction action resp cardExists cache).rerendered = some m) ∧
    (resp = none ∨ (∃ r, resp = some r ∧ r.ok = false) →
      (machineAction action resp cardExists cache).errAlert =
        some ("❌ " ++ action ++ " failed") ∧
      (machineAction action resp cardExists cache).rerendered = none) := by
  refine ⟨?_, ?_, ?_⟩
  · cases resp with
    | none => rfl
    | some r =>
      cases hok : r.ok with
      | false => simp [machineAction, hok]
      | true =>
        cases hm : r.machine with
        | none => cases cardExists <;> simp [machineAction, hok, hm]
        | some m => cases cardExists <;> simp [machineAction, hok, hm]
  · intro r m hr hok hm hcard
    subst hr
    subst hcard
    simp [machineAction, hok, hm]
  · intro hfail
    rcases hfail with hr | ⟨r, hr, hok⟩
    · subst hr
      exact ⟨rfl, rfl⟩
    · subst hr
      simp [machineAction, hok]

/-- Witness for C5: a concrete successful start leaves the state as it
was and re-renders the returned record. -/
theorem action_scoped_update_witness :
    (machineAction "start" (some ⟨true, some ⟨"m1", "A1", "running", none, none⟩⟩)
        true ⟨some [⟨"Modan", [⟨"m1", "A1", "paused", none, none⟩]⟩]⟩).cache =
      ⟨some [⟨"Modan", [⟨"m1", "A1", "paused", none, none⟩]⟩]⟩ ∧
    (machineAction "start" (some ⟨true, some ⟨"m1", "A1", "running", none, none⟩⟩)
        true ⟨some [⟨"Modan", [⟨"m1", "A1", "paused", none, none⟩]⟩]⟩).rerendered =
      some ⟨"m1", "A1", "running", none, none⟩ :=
  ⟨(action_scoped_update "start" (some ⟨true, some ⟨"m1", "A1", "running", none, none⟩⟩)
      true ⟨some [⟨"Modan", [⟨"m1", "A1", "paused", none, none⟩]⟩]⟩).1,
    (action_scoped_update "start" (some ⟨true, some ⟨"m1", "A1", "running", none, none⟩⟩)
      true ⟨some [⟨"Modan", [⟨"m1", "A1", "paused", none, none⟩]⟩]⟩).2.1
      ⟨true, some ⟨"m1", "A1", "running", none, none⟩⟩
      ⟨"m1", "A1", "running", none, none⟩ rfl rfl rfl rfl⟩

/-! ## C6 -/

/-- C6 counterexample: the free-text search consults the snapshot `name`
field, not the rename-overlay display name.  With machine `m1` (snapshot
name "A1") renamed to "Zulu", searching "zulu" yields no card although
the displayed name contains it, while searching "a1" still matches even
though the displayed name is "Zulu". -/
theorem search_ignores_rename_cex :
    renderDashboard ⟨"all", "operator"⟩ (fun i => if i = "m1" then some "Zulu" else none)
        ⟨"all", "all", "zulu"⟩ [⟨"Modan", [⟨"m1", "A1", "running", none, none⟩]⟩] =
      [("Modan", [])] ∧
    displayName (fun i => if i = "m1" then some "Zulu" else none)
      ⟨"m1", "A1", "running", none, none⟩ = "Zulu" ∧
    strContains (strLower "Zulu") "zulu" = true ∧
    (renderDashboard ⟨"all", "operator"⟩ (fun i => if i = "m1" then some "Zulu" else none)
        ⟨"all", "all", "a1"⟩ [⟨"Modan", [⟨"m1", "A1", "running", none, none⟩]⟩]).map
      (fun p => p.2.map Card.nameText) = [["Zulu"]] :=
  ⟨rfl, rfl, rfl, rfl⟩

/-- C6 (amended): the render pass applies three independent filters in
sequence — location (exact match or "all"), status (exact match or
"all"), and a case-insensitive substring search over the machine's
snapshot `name` field (the rename overlay is not consulted) or the
current job's work order — and the spec's two concrete examples hold:
status "running" yields exactly ["A1"], and search "b" with status "all"
yields exactly ["B2"]. -/
theorem filter_composition :
    (∀ (f : Filters) (loc : Location) (m : Machine),
      m ∈ shownMachines f loc ↔
        m ∈ loc.machines ∧ (f.status = "all" ∨ m.status = f.status) ∧
          (strLower (strTrim f.search) = "" ∨
            strContains (strLower m.name) (strLower (strTrim f.search)) = true ∨
            strContains (strLower (jobWO m)) (strLower (strTrim f.search)) = true)) ∧
    (visibleMachines ⟨"all", "operator"⟩ ⟨"all", "running", ""⟩
        [⟨"L", [⟨"m1", "A1", "running", none, none⟩,
          ⟨"m2", "B2", "idle", none, none⟩]⟩]).map
      (fun p => p.2.map Machine.name) = [["A1"]] ∧
    (visibleMachines ⟨"all", "operator"⟩ ⟨"all", "all", "b"⟩
        [⟨"L", [⟨"m1", "A1", "running", none, none⟩,
          ⟨"m2", "B2", "idle", none, none⟩]⟩]).map
      (fun p => p.2.map Machine.name) = [["B2"]] := by
  refine ⟨?_, rfl, rfl⟩
  intro f loc m
  unfold shownMachines
  by_cases hs : f.status = "all" <;> by_cases hq : strLower (strTrim f.search) = ""
  all_goals simp [hs, hq, List.mem_filter, beq_iff_eq, bne_iff_ne]
  all_goals tauto

/-- Witness for C6: the membership characterization applied at machine
B2 with status "all" and search text "b". -/
theorem filter_composition_witness :
    (⟨"m2", "B2", "idle", none, none⟩ : Machine) ∈
      shownMachines ⟨"all", "all", "b"⟩
        ⟨"L", [⟨"m1", "A1", "running", none, none⟩,
          ⟨"m2", "B2", "idle", none, none⟩]⟩ :=
  (filter_composition.1 ⟨"all", "all", "b"⟩
      ⟨"L", [⟨"m1", "A1", "running", none, none⟩,
        ⟨"m2", "B2", "idle", none, none⟩]⟩
      ⟨"m2", "B2", "idle", none, none⟩).mpr
    ⟨by decide, Or.inl rfl, Or.inr (Or.inl rfl)⟩

/-! ## C9 -/

/-- The three color bands of the progress bar, as intervals of the
clamped value (in tenths). -/
theorem progressColor_bands (v : Int) :
    (progressColor v = "red" ↔ 900 ≤ v) ∧
    (progressColor v = "orange" ↔ 750 ≤ v ∧ v < 900) ∧
    (progressColor v = "green" ↔ v < 750) := by
  unfold progressColor
  by_cases h9 : 900 ≤ v
  · rw [if_pos (show v ≥ 900 from h9)]
    exact ⟨⟨fun _ => h9, fun _ => rfl⟩,
      ⟨fun h => absurd h (by decide), fun h => absurd h.2 (by omega)⟩,
      ⟨fun h => absurd h (by decide), fun h => absurd h (by omega)⟩⟩
  · rw [if_neg (show ¬v ≥ 900 from h9)]
    by_cases h7 : 750 ≤ v
    · rw [if_pos (show v ≥ 750 from h7)]
      exact ⟨⟨fun h => absurd h (by decide), fun h => absurd h h9⟩,
        ⟨fun _ => ⟨h7, by omega⟩, fun _ => rfl⟩,
        ⟨fun h => absurd h (by decide), fun h => absurd h (by omega)⟩⟩
    · rw [if_neg (show ¬v ≥ 750 from h7)]
      exact ⟨⟨fun h => absurd h (by decide), fun h => absurd h (by omega)⟩,
        ⟨fun h => absurd h (by decide), fun h => absurd h.1 h7⟩,
        ⟨fun _ => by omega, fun _ => rfl⟩⟩

/-- C9 counterexample: `Math.min(p.toFixed(1), 100)` coerces the
one-decimal string back to a number, so a whole-number percent renders
without the decimal: a job at 50.0% displays "50", not the one-decimal
"50.0" the claim requires. -/
theorem percent_one_decimal_cex :
    ((mkCard (fun _ => none)
        ⟨"m1", "A1", "running", some ⟨"WO-1", "2in", 10, 20, some 60, some 500⟩,
          none⟩).jobView.map JobView.percentText) = some "50" ∧
    oneDecimalText (min 500 1000) = "50.0" ∧
    (some "50" : Option String) ≠ some "50.0" :=
  ⟨rfl, rfl, by decide⟩

/-- C9 (amended): for a card rendered with a job whose progress is `k`
tenths of a percent, the displayed percent is `min(k, 100%)` printed as a
JS number (one decimal digit, with a trailing ".0" dropped on whole
numbers, the clamp applied after rounding), and the bar color is red
exactly on [90%, ∞), orange exactly on [75%, 90%), green exactly below
75%, of that clamped value — which never exceeds 100%. -/
theorem percent_display (ov : Overlay) (m : Machine) (j : Job) (k : Int)
    (hj : m.job = some j) (hk : j.progress_percent = some k) :
    ((mkCard ov m).jobView.map JobView.percentText) =
      some (renderTenths (min k 1000)) ∧
    ((mkCard ov m).jobView.map JobView.barColor) =
      some (progressColor (min k 1000)) ∧
    (progressColor (min k 1000) = "red" ↔ 900 ≤ min k 1000) ∧
    (progressColor (min k 1000) = "orange" ↔
      750 ≤ min k 1000 ∧ min k 1000 < 900) ∧
    (progressColor (min k 1000) = "green" ↔ min k 1000 < 750) ∧
    min k 1000 ≤ 1000 := by
  obtain ⟨b1, b2, b3⟩ := progressColor_bands (min k 1000)
  refine ⟨?_, ?_, b1, b2, b3, min_le_right _ _⟩
  · simp [mkCard, percentVal, hj, hk]
  · simp [mkCard, percentVal, hj, hk]

/-- Witness for C9 at a job sitting at 92.3%: displayed "92.3", red bar. -/
theorem percent_display_witness :
    ((mkCard (fun _ => none)
        ⟨"m1", "A1", "running", some ⟨"WO-1", "2in", 18, 20, some 60, some 923⟩,
          none⟩).jobView.map JobView.percentText) =
      some (renderTenths (min 923 1000)) ∧
    ((mkCard (fun _ => none)
        ⟨"m1", "A1", "running", some ⟨"WO-1", "2in", 18, 20, some 60, some 923⟩,
          none⟩).jobView.map JobView.barColor) =
      some (progressColor (min 923 1000)) ∧
    renderTenths (min 923 1000) = "92.3" ∧
    progressColor (min 923 1000) = "red" :=
  ⟨(percent_display (fun _ => none)
      ⟨"m1", "A1", "running", some ⟨"WO-1", "2in", 18, 20, some 60, some 923⟩, none⟩
      ⟨"WO-1", "2in", 18, 20, some 60, some 923⟩ 923 rfl rfl).1,
    (percent_display (fun _ => none)
      ⟨"m1", "A1", "running", some ⟨"WO-1", "2in", 18, 20, some 60, some 923⟩, none⟩
      ⟨"WO-1", "2in", 18, 20, some 60, some 923⟩ 923 rfl rfl).2.1,
    rfl, rfl⟩

/-! ## C10 -/

/-- A tick of an active interval whose captured element was present:
show the counter, post-decrement it, stay active while it is
nonnegative. -/
theorem etaTick_run (b : Bool) (st : CountdownState) (ha : st.active = true)
    (he : st.el = true) :
    etaTick b st = ⟨st.el, st.t - 1, formatTime st.t, decide (0 ≤ st.t - 1)⟩ := by
  unfold etaTick
  rw [ha, he]
  simp

/-- A tick of a cancelled interval is a no-op. -/
theorem etaTick_stop (b : Bool) (st : CountdownState) (ha : st.active = false) :
    etaTick b st = st := by
  unfold etaTick
  rw [ha]
  simp

/-- Invariant of the countdown interval after `k+1` ticks: the captured
element reference is unchanged, the display shows `formatTime (s - k)`
(each tick shows the counter before post-decrementing it), the interval
is active exactly while the decremented counter `s - (k+1)` is still
nonnegative, and while active the counter equals `s - (k+1)`. -/
theorem tickN_inv (s : Int) : ∀ k : Nat,
    (tickN (k + 1) (countdownSetup s)).el = true ∧
    (tickN (k + 1) (countdownSetup s)).display = formatTime (s - (k : Int)) ∧
    (tickN (k + 1) (countdownSetup s)).active = decide (0 ≤ s - ((k : Int) + 1)) ∧
    ((tickN (k + 1) (countdownSetup s)).active = true →
      (tickN (k + 1) (countdownSetup s)).t = s - ((k : Int) + 1)) := by
  intro k
  induction k with
  | zero =>
    have h0 : tickN (0 + 1) (countdownSetup s) =
        ⟨true, s - 1, formatTime s, decide (0 ≤ s - 1)⟩ :=
      etaTick_run true (countdownSetup s) rfl rfl
    rw [h0]
    refine ⟨rfl, ?_, ?_, ?_⟩
    · show formatTime s = formatTime (s - ((0 : Nat) : Int))
      norm_num
    · show decide (0 ≤ s - 1) = decide (0 ≤ s - (((0 : Nat) : Int) + 1))
      norm_num
    · intro _
      show s - 1 = s - (((0 : Nat) : Int) + 1)
      norm_num
  | succ k ih =>
    obtain ⟨hel, hd, ha, ht⟩ := ih
    by_cases hc : 0 ≤ s - ((k : Int) + 1)
    · have hact : (tickN (k + 1) (countdownSetup s)).active = true := by
        rw [ha]
        exact decide_eq_true hc
      have htv := ht hact
      have hrun : tickN (k + 1 + 1) (countdownSetup s) =
          ⟨(tickN (k + 1) (countdownSetup s)).el,
            (tickN (k + 1) (countdownSetup s)).t - 1,
            formatTime (tickN (k + 1) (countdownSetup s)).t,
            decide (0 ≤ (tickN (k + 1) (countdownSetup s)).t - 1)⟩ :=
        etaTick_run true _ hact hel
      rw [hrun, hel, htv]
      refine ⟨rfl, ?_, ?_, ?_⟩
      · show formatTime (s - ((k : Int) + 1)) = formatTime (s - ((k + 1 : Nat) : Int))
        congr 1
      · show decide (0 ≤ s - ((k : Int) + 1) - 1) =
          decide (0 ≤ s - (((k + 1 : Nat) : Int) + 1))
        simp only [decide_eq_decide]
        omega
      · intro _
        show s - ((k : Int) + 1) - 1 = s - (((k + 1 : Nat) : Int) + 1)
        omega
    · have hact : (tickN (k + 1) (countdownSetup s)).active = false := by
        rw [ha]
        exact decide_eq_false hc
      have hstop : tickN (k + 1 + 1) (countdownSetup s) =
          tickN (k + 1) (countdownSetup s) :=
        etaTick_stop true _ hact
      rw [hstop]
      refine ⟨hel, ?_, ?_, ?_⟩
      · rw [hd, formatTime_nonpos _ (by omega), formatTime_nonpos _ (by omega)]
      · rw [ha]
        simp only [decide_eq_decide]
        omega
      · intro h
        rw [hact] at h
        exact absurd h (by decide)

/-- C10: after `setupETACountdown` with the element present the display
immediately shows `formatTime s`; after `n = k+1 ≥ 1` one-second ticks it
shows `formatTime (s - (n - 1))` (so the first tick repeats the initial
value); the interval is active exactly while the post-decremented counter
`s - n` is nonnegative, so it self-cancels exactly when that counter goes
below 0; and once cancelled the display reads "0:00". -/
theorem countdown_semantics (s : Int) (k : Nat) :
    (countdownSetup s).display = formatTime s ∧
    (tickN (k + 1) (countdownSetup s)).display = formatTime (s - (k : Int)) ∧
    ((tickN (k + 1) (countdownSetup s)).active = true ↔ 0 ≤ s - ((k : Int) + 1)) ∧
    ((tickN (k + 1) (countdownSetup s)).active = false →
      (tickN (k + 1) (countdownSetup s)).display = "0:00") := by
  obtain ⟨hel, hd, ha, ht⟩ := tickN_inv s k
  refine ⟨rfl, hd, ?_, ?_⟩
  · rw [ha]
    exact decide_eq_true_iff
  · intro hf
    rw [ha] at hf
    have hneg : ¬0 ≤ s - ((k : Int) + 1) := of_decide_eq_false hf
    rw [hd]
    exact formatTime_nonpos _ (by omega)

/-- Witness for C10: a 2-second countdown, after 4 ticks, has cancelled
and left "0:00" on the display; initially it showed "0:02". -/
theorem countdown_semantics_witness :
    (tickN 4 (countdownSetup 2)).display = "0:00" ∧
    (countdownSetup 2).display = "0:02" :=
  ⟨(countdown_semantics 2 3).2.2.2 (by decide),
    ((countdown_semantics 2 3).1).trans (by decide)⟩
